import Mathlib

/-!
Verification of the mini-shell command executor (`src/src/cmd.c`) against its
natural-language specification.  The C data model and the functions
`shell_cd`, `open_files`, `parse_simple`, `run_in_parallel`, `run_on_pipe` and
`parse_command` are shallowly embedded below; OS outcomes (directory changes,
`setenv` return codes, external-command wait statuses) are supplied by an
explicit `World` oracle, and undefined behaviour (dereferencing a null
`command_t` pointer) is modelled by an `Option` result.
-/

namespace MiniShell

/-- A `word_t` as used for the command verb: the head `string` plus the
flattened chain of the following parts (the `next_part` links).  Modelled from
the spec: `cmd.h` is not under `src/`; the spec describes the verb as a token
possibly followed by a literal `=` token and a value. -/
structure Word where
  string : String
  next : List String
deriving DecidableEq, Repr

/-- `get_word` (from the missing `utils.h`): concatenation of all parts of a
word.  Modelled from the spec, which treats a multi-part redirection word as
"an expression yielding a file path". -/
def get_word (w : Word) : String := w.string ++ String.join w.next

/-- A `simple_command_t`.  Redirection targets are modelled by the path string
`get_word` would produce (the spec's "path string"); `params` is modelled from
the spec as the ordered argument list, since `cmd.h` is not under `src/`. -/
structure simple_command where
  verb : Option Word
  params : List String
  out : Option String
  err : Option String
  inp : Option String
  io_flags : Nat
deriving DecidableEq, Repr

/-- The oracle for OS outcomes: `extStatus c` is the raw exit code an
external command `c` would report to `wait` (including the exec-failure path
that exits with `EXIT_FAILURE`), `chdirOK p` says whether `chdir(p)` succeeds,
and `setenvRC n v` is the return code of `setenv(n, v, 1)`. -/
structure World where
  extStatus : String → Nat
  chdirOK : String → Bool
  setenvRC : String → String → Int

/-- Modelled from the spec: `SHELL_EXIT` is defined in a header not under
`src/`; the spec calls it "a distinguished terminate status".  We fix it as
`-100`, distinct from every ordinary status the executor produces. -/
def SHELL_EXIT : Int := -100

/-- Modelled from the spec: the operator tags of `cmd.h` form a C enumeration,
i.e. distinct small integers.  The particular numbering is immaterial to every
claim (the unrecognized-operator claim quantifies over the tag value). -/
def OP_NONE : Nat := 0

def OP_SEQUENTIAL : Nat := 1

def OP_PARALLEL : Nat := 2

def OP_CONDITIONAL_NZERO : Nat := 3

def OP_CONDITIONAL_ZERO : Nat := 4

def OP_PIPE : Nat := 5

/-- Result of `shell_cd`: the boolean return value, the working directory
after the call, and whether a diagnostic (`perror("cd")`) was written. -/
structure CdResult where
  ok : Bool
  cwd : String
  diag : Bool
deriving DecidableEq, Repr

/-- `shell_cd` (cmd.c:24-36).  Fails without a diagnostic when the argument
pointer is null or a further argument follows; otherwise calls `chdir` and on
failure prints `perror("cd")` and fails.  The working directory changes only
when `chdir` succeeds (on success we take the new directory to be the given
path). -/
def shell_cd (chdirOK : String → Bool) (params : List String) (cwd : String) :
    CdResult :=
  match params with
  | [] => ⟨false, cwd, false⟩
  | [d] => if chdirOK d then ⟨true, d, false⟩ else ⟨false, cwd, true⟩
  | _ :: _ :: _ => ⟨false, cwd, false⟩

/-- Observable events of executing a command tree: a simple command reached
`parse_simple`, or the current process called `fork()`. -/
inductive Event where
  | ranSimple (s : simple_command)
  | forked
deriving DecidableEq, Repr

/-- A process termination status as seen by `wait`/`waitpid`: a normal exit
with a code, or a termination by a signal. -/
inductive ProcStatus where
  | exited (code : Nat)
  | signaled (sig : Nat)
deriving DecidableEq, Repr

/-- `WIFEXITED`: true exactly for normal exits. -/
def WIFEXITED : ProcStatus → Bool
  | .exited _ => true
  | .signaled _ => false

/-- `WEXITSTATUS`: the low byte of the exit code for a normal exit.  For a
termination by signal the raw Linux wait status has zero in the exit-code
byte, so `WEXITSTATUS` yields `0` there. -/
def WEXITSTATUS : ProcStatus → Nat
  | .exited c => c % 256
  | .signaled _ => 0

/-- `parse_simple` (cmd.c:102-168), returning the status, the working
directory after the call, and the event trace.  Dispatch order as in the
source: null verb, `true`, `false`, `cd`, `exit`/`quit`, assignment (second
word part is a literal `=`), external command (fork + execvp + wait, whose
`WEXITSTATUS` masks the code to its low byte). -/
def parse_simple (w : World) (cwd : String) (s : simple_command) :
    Int × String × List Event :=
  match s.verb with
  | none => (-1, cwd, [Event.ranSimple s])
  | some v =>
    let command := get_word v
    if command = "true" then
      (0, cwd, [Event.ranSimple s])
    else if command = "false" then
      (-1, cwd, [Event.ranSimple s])
    else if command = "cd" then
      let r := shell_cd w.chdirOK s.params cwd
      (if r.ok then 0 else 1, r.cwd, [Event.ranSimple s])
    else if command = "exit" ∨ command = "quit" then
      (SHELL_EXIT, cwd, [Event.ranSimple s])
    else if v.next.head? = some "=" then
      (w.setenvRC v.string (String.join v.next.tail), cwd, [Event.ranSimple s])
    else
      (((w.extStatus command) % 256 : Nat), cwd,
        [Event.ranSimple s, Event.forked])

/-- A `command_t *` pointer: NULL, or a node with the operator tag, the two
child pointers and the nullable simple command, exactly as in the C struct. -/
inductive command : Type where
  | null : command
  | mk (op : Nat) (cmd1 : command) (cmd2 : command)
      (scmd : Option simple_command) : command

/-- Is this `command_t *` the NULL pointer? -/
def command.isNull : command → Bool
  | .null => true
  | .mk _ _ _ _ => false

/-- The termination status a forked child wrapper produces in
`run_in_parallel` (cmd.c:183-187, 192-196) and `run_on_pipe` (cmd.c:225-233,
238-245): `rc = parse_command(...); if (rc < 0) exit(EXIT_FAILURE);
exit(EXIT_SUCCESS);` — a NORMAL exit with code 1 or 0.  A child whose
`parse_command` call crashes on a null dereference (`none`) is terminated by
`SIGSEGV`, a signaled status. -/
def childStatus (r : Option (Int × String × List Event)) : ProcStatus :=
  match r with
  | some r => .exited (if r.1 < 0 then 1 else 0)
  | none => .signaled 11

/-- The events a forked child contributed (empty when it crashed). -/
def childTrace (r : Option (Int × String × List Event)) : List Event :=
  match r with
  | some r => r.2.2
  | none => []

/-- The parent branch of `run_in_parallel` (cmd.c:198-207) combined with
`parse_command`'s `return !run_in_parallel(...)` (cmd.c:282): the wait loop
succeeds iff both reaped child statuses are normal exits, and the C `!`
turns the bool into status 0 (success) or 1. -/
def par_combine (rA rB : Option (Int × String × List Event)) (cwd : String) :
    Option (Int × String × List Event) :=
  some (if WIFEXITED (childStatus rA) && WIFEXITED (childStatus rB)
      then 0 else 1,
    cwd, Event.forked :: childTrace rA ++ Event.forked :: childTrace rB)

/-- The parent branch of `run_on_pipe` (cmd.c:246-254) combined with
`parse_command`'s `return !run_on_pipe(...)` (cmd.c:304): the two `waitpid`
calls store into the same `status` variable, so only the second (downstream)
child's status survives; the result is `WEXITSTATUS(status) != 0` negated by
the C `!`, i.e. 0 iff the downstream wrapper exited with code 0. -/
def pipe_combine (rA rB : Option (Int × String × List Event)) (cwd : String) :
    Option (Int × String × List Event) :=
  some (if WEXITSTATUS (childStatus rB) ≠ 0 then 1 else 0,
    cwd, Event.forked :: childTrace rA ++ Event.forked :: childTrace rB)

/-- `parse_command` (cmd.c:262-312).  `none` models a crash of the executing
process by dereferencing the NULL pointer (the events of a crashed process
are discarded with it).  The sanity check, the `OP_NONE` shortcut, the
if/switch dispatch on the operator tag, and the placeholder `return -1;`
behind the `break`s (cmd.c:310-311) are transcribed directly; `OP_PARALLEL`
and `OP_PIPE` delegate to the wait-combining helpers above.  The working
directory is threaded through same-process execution and snapshotted (not
written back) across forks. -/
def parse_command (w : World) (cwd : String) :
    command → Option (Int × String × List Event)
  | .null => none
  | .mk op c1 c2 sc =>
    if c1.isNull ∧ c2.isNull ∧ sc.isNone then
      some (-1, cwd, [])
    else if op = OP_NONE then
      sc.map (fun s => parse_simple w cwd s)
    else if op = OP_SEQUENTIAL then
      (parse_command w cwd c1).bind (fun r1 =>
        (parse_command w r1.2.1 c2).map (fun r2 =>
          (-1, r2.2.1, r1.2.2 ++ r2.2.2)))
    else if op = OP_PARALLEL then
      par_combine (parse_command w cwd c1) (parse_command w cwd c2) cwd
    else if op = OP_CONDITIONAL_NZERO then
      (parse_command w cwd c1).bind (fun r1 =>
        if r1.1 ≠ 0 then
          (parse_command w r1.2.1 c2).map (fun r2 =>
            (-1, r2.2.1, r1.2.2 ++ r2.2.2))
        else some (-1, r1.2.1, r1.2.2))
    else if op = OP_CONDITIONAL_ZERO then
      (parse_command w cwd c1).bind (fun r1 =>
        if r1.1 = 0 then
          (parse_command w r1.2.1 c2).map (fun r2 =>
            (-1, r2.2.1, r1.2.2 ++ r2.2.2))
        else some (-1, r1.2.1, r1.2.2))
    else if op = OP_PIPE then
      pipe_combine (parse_command w cwd c1) (parse_command w cwd c2) cwd
    else
      some (SHELL_EXIT, cwd, [])

/-- The flag set an `open` call in `open_files` carries. -/
structure OpenFlags where
  creat : Bool
  wronly : Bool
  rdonly : Bool
  append : Bool
  trunc : Bool
deriving DecidableEq, Repr

/-- A file-descriptor event of `open_files` (cmd.c:50-82).  `dupSaved slot`
records `outs_save[i] = dup(outs[i])`; `opened fd path fl` records a
successful `open` (the `fd` is the index of the open within the call);
`dup2ed fd slot` records `dup2(fd, slot)` onto the real descriptor number
`slot` (stdout 1, stderr 2, stdin 0); `closedF fd` records `close(fd)`. -/
inductive FEvent where
  | dupSaved (slot : Nat)
  | opened (fd : Nat) (path : String) (fl : OpenFlags)
  | dup2ed (fd : Nat) (slot : Nat)
  | closedF (fd : Nat)
deriving DecidableEq, Repr

/-- The base flag array `flags[3] = {O_CREAT|O_WRONLY, O_CREAT|O_WRONLY,
O_CREAT|O_RDONLY}` of `open_files`, with the append-or-truncate bit added. -/
def flagsFor (i : Nat) (app : Bool) : OpenFlags :=
  ⟨true, !(i == 2), i == 2, app, !app⟩

/-- One iteration of the `open_files` loop (cmd.c:59-81) for index `i` over
stream slot `slot` with redirection word `target`.  `redir1` is the current
value of `redir[1]` (nulled out by the combined `&>` branch), `nfd` the next
open index.  Returns the events, the updated `redir[1]` and the next open
index. -/
def open_slot (io_flags : Nat) (i : Nat) (slot : Nat) (target : Option String)
    (redir1 : Option String) (nfd : Nat) :
    List FEvent × Option String × Nat :=
  match target with
  | none => ([FEvent.dupSaved slot], redir1, nfd)
  | some file =>
    if i = 0 ∧ redir1 = some file then
      ([FEvent.dupSaved slot,
        FEvent.opened nfd file ⟨true, true, false, true, true⟩,
        FEvent.dup2ed nfd 2,
        FEvent.dup2ed nfd slot, FEvent.closedF nfd],
       none, nfd + 1)
    else if io_flags ≠ 0 ∨ i = 2 then
      ([FEvent.dupSaved slot, FEvent.opened nfd file (flagsFor i true),
        FEvent.dup2ed nfd slot, FEvent.closedF nfd],
       redir1, nfd + 1)
    else
      ([FEvent.dupSaved slot, FEvent.opened nfd file (flagsFor i false),
        FEvent.dup2ed nfd slot, FEvent.closedF nfd],
       redir1, nfd + 1)

/-- `open_files` (cmd.c:50-82) as its event trace: the loop runs i = 0, 1, 2
over `{s->out, s->err, s->in}` and slots `{1, 2, 0}`, where the stderr
iteration reads the `redir[1]` left by the stdout iteration (nulled when the
combined branch fired). -/
def open_files (s : simple_command) : List FEvent :=
  let r0 := open_slot s.io_flags 0 1 s.out s.err 0
  let r1 := open_slot s.io_flags 1 2 r0.2.1 r0.2.1 r0.2.2
  let r2 := open_slot s.io_flags 2 0 s.inp r1.2.1 r1.2.2
  r0.1 ++ r1.1 ++ r2.1

/-- Is the event an `open` for writing (`O_WRONLY`)? -/
def isWriteOpen : FEvent → Bool
  | .opened _ _ fl => fl.wronly
  | _ => false

/-- One reap of the parent's wait loop in `run_in_parallel`: the pid `wait`
returned and the status it stored. -/
structure WaitResult where
  pid : Nat
  st : ProcStatus
deriving DecidableEq, Repr

/-- The parent's wait loop of `run_in_parallel` (cmd.c:198-205): `i = 2`
iterations, each calling `wait(&status)` and returning `false` as soon as a
reaped status is not a normal exit.  A `wait` with no remaining child is
modelled as blocking forever (the `false` in that case is unreachable under
`valid_reaps`). -/
def wait_loop : Nat → List WaitResult → Bool
  | 0, _ => true
  | _ + 1, [] => false
  | i + 1, r :: rest => if WIFEXITED r.st then wait_loop i rest else false

/-- The boolean result of `run_in_parallel`'s parent branch, given the reap
sequence its two `wait(&status)` calls observe. -/
def run_in_parallel_wait (reaps : List WaitResult) : Bool :=
  wait_loop 2 reaps

/-- The possible reap sequences of the parent in `run_in_parallel`: `wait(2)`
carries no pid argument and returns whichever child terminates first, so with
the two forked children `c1` (status `s1`) and `c2` (status `s2`) the
observed sequence is one of the two orders, decided by the OS schedule. -/
def valid_reaps (c1 c2 : Nat) (s1 s2 : ProcStatus)
    (reaps : List WaitResult) : Prop :=
  reaps = [⟨c1, s1⟩, ⟨c2, s2⟩] ∨ reaps = [⟨c2, s2⟩, ⟨c1, s1⟩]

/-- Well-formed command trees per the spec's data-model invariant: a leaf
(`OP_NONE` with a simple command) or an operator node carrying one of the
five real operator tags and two non-null, well-formed children. -/
inductive wf : command → Prop where
  | leaf : ∀ c1 c2 s, wf (command.mk OP_NONE c1 c2 (some s))
  | node : ∀ op a b sc, 1 ≤ op → op ≤ 5 → wf a → wf b →
      wf (command.mk op a b sc)

/-! ### Concrete fixtures used by counterexamples and witnesses -/

/-- A world where every OS operation succeeds and every external command
reports status 0. -/
def wEx : World := ⟨fun _ => 0, fun _ => true, fun _ _ => 0⟩

/-- A world where `chdir` always fails. -/
def wCd : World := ⟨fun _ => 0, fun _ => false, fun _ _ => 0⟩

/-- The simple command `true`. -/
def sTrue : simple_command := ⟨some ⟨"true", []⟩, [], none, none, none, 0⟩

/-- The simple command `false`. -/
def sFalse : simple_command := ⟨some ⟨"false", []⟩, [], none, none, none, 0⟩

/-- The simple command `cd bad`. -/
def sCdBad : simple_command := ⟨some ⟨"cd", []⟩, ["bad"], none, none, none, 0⟩

/-- Leaf node for `true`. -/
def leafTrue : command := .mk OP_NONE .null .null (some sTrue)

/-- Leaf node for `false`. -/
def leafFalse : command := .mk OP_NONE .null .null (some sFalse)

/-- Leaf node for `cd bad`. -/
def leafCdBad : command := .mk OP_NONE .null .null (some sCdBad)

/-- A command whose `parse_command` run returns a value cannot be the NULL
pointer. -/
lemma parse_some_not_null {w : World} {cwd : String} {a : command}
    {r : Int × String × List Event}
    (h : parse_command w cwd a = some r) : a.isNull = false := by
  cases a with
  | null => simp [parse_command] at h
  | mk op c1 c2 sc => rfl

/-! ### Claims -/

/-- C1 (code bug, evaluated at the failing input): for
`SEQUENTIAL(true, true)` both children are executed, left before right (the
trace shows both leaves in order), and the right child's standalone status is
`0`; yet `parse_command` returns `-1` for the node — the `return -1;` behind
the `break` (cmd.c:311) is the placeholder its own comment (cmd.c:310) says
should be the actual exit code, so the node's status does not equal the right
child's status. -/
theorem sequential_placeholder_status :
    parse_command wEx "/" (.mk OP_SEQUENTIAL leafTrue leafTrue none)
      = some (-1, "/", [Event.ranSimple sTrue, Event.ranSimple sTrue])
    ∧ parse_command wEx "/" leafTrue = some (0, "/", [Event.ranSimple sTrue])
    ∧ ((-1 : Int) ≠ 0) := by decide

/-- C2 (code bug, evaluated at the failing input): for
`COND_NONZERO(true, false)` the left child returns `0` and the right child is
never executed (its leaf is absent from the trace), as the claim states; but
the node's returned status is `-1`, not `0` — the same placeholder
`return -1;` (cmd.c:310-311) stands in for the actual exit code. -/
theorem cond_nonzero_placeholder_status :
    parse_command wEx "/" (.mk OP_CONDITIONAL_NZERO leafTrue leafFalse none)
      = some (-1, "/", [Event.ranSimple sTrue])
    ∧ Event.ranSimple sFalse ∉ [Event.ranSimple sTrue]
    ∧ parse_command wEx "/" leafTrue = some (0, "/", [Event.ranSimple sTrue])
    ∧ ((-1 : Int) ≠ 0) := by decide

/-- C3 counterexample: for `PIPE(true, cd bad)` the downstream child run
standalone reports status `1`, but the pipe construct reports `0` — the
claimed equality with the downstream child's standalone status fails, because
the child wrapper collapses every nonnegative status to exit code `0`. -/
theorem pipe_status_not_standalone_counterexample :
    (parse_command wCd "/" (.mk OP_PIPE leafTrue leafCdBad none)).map
        (fun r => r.1) = some 0
    ∧ (parse_command wCd "/" leafCdBad).map (fun r => r.1) = some 1
    ∧ ((0 : Int) ≠ 1) := by decide

/-- C3 (amended): the status of a `PIPE` node is derived solely from the
downstream child `B` — it is `1` when `B`'s standalone status is negative and
`0` otherwise, and it is unchanged under replacing the upstream child by any
other tree. -/
theorem pipe_status_from_downstream_sign (w : World) (cwd : String)
    (a a' b : command) (rb : Int) (cw : String)
    (tb : List Event) (hb : parse_command w cwd b = some (rb, cw, tb)) :
    (parse_command w cwd (.mk OP_PIPE a b none)).map (fun r => r.1)
      = some (if rb < 0 then 1 else 0)
    ∧ (parse_command w cwd (.mk OP_PIPE a b none)).map (fun r => r.1)
      = (parse_command w cwd (.mk OP_PIPE a' b none)).map (fun r => r.1) := by
  have hnb := parse_some_not_null hb
  rcases lt_or_le rb 0 with hrb | hrb
  · simp [parse_command, OP_PIPE, OP_NONE, OP_SEQUENTIAL, OP_PARALLEL,
      OP_CONDITIONAL_NZERO, OP_CONDITIONAL_ZERO, hnb, hb, pipe_combine,
      childStatus, WEXITSTATUS, hrb]
  · have hrb2 : ¬ rb < 0 := not_lt.mpr hrb
    simp [parse_command, OP_PIPE, OP_NONE, OP_SEQUENTIAL, OP_PARALLEL,
      OP_CONDITIONAL_NZERO, OP_CONDITIONAL_ZERO, hnb, hb, pipe_combine,
      childStatus, WEXITSTATUS, hrb2]

/-- Witness for C3's amended theorem at `PIPE(·, false)` with a NULL and a
`true` upstream child. -/
theorem pipe_status_from_downstream_sign_witness :
    (parse_command wEx "/"
        (.mk OP_PIPE command.null leafFalse none)).map (fun r => r.1)
      = some (if (-1 : Int) < 0 then 1 else 0)
    ∧ (parse_command wEx "/"
        (.mk OP_PIPE command.null leafFalse none)).map (fun r => r.1)
      = (parse_command wEx "/"
          (.mk OP_PIPE leafTrue leafFalse none)).map (fun r => r.1) :=
  pipe_status_from_downstream_sign wEx "/" command.null leafTrue leafFalse
    (-1) "/" [Event.ranSimple sFalse] rfl

/-- C4 counterexample: in `PARALLEL(false, true)` the left child subtree
reports the negative status `-1`, yet the construct returns `0` (success) —
the child wrapper's `exit(EXIT_FAILURE)` is a normal termination, so the
waiting parent's `WIFEXITED` check still passes, contradicting the claim that
the parent observes failure. -/
theorem parallel_negative_child_success_counterexample :
    (parse_command wEx "/" (.mk OP_PARALLEL leafFalse leafTrue none)).map
        (fun r => r.1) = some 0
    ∧ (parse_command wEx "/" leafFalse).map (fun r => r.1) = some (-1)
    ∧ ((-1 : Int) < 0) := by decide

/-- C4 (amended): `PARALLEL` returns success iff both children terminate
normally, but a child subtree reporting a negative status is translated into
`exit(EXIT_FAILURE)` — a NORMAL termination with code 1 — so whenever both
children's executions return (with any statuses, negative included) the
construct reports success `0`; only a genuinely non-exited (signaled) child
status flips the wait loop's result, as the second conjunct states. -/
theorem parallel_success_when_children_return (w : World) (cwd : String)
    (a b : command) (ra rb : Int) (ca cb : String) (ta tb : List Event)
    (ha : parse_command w cwd a = some (ra, ca, ta))
    (hb : parse_command w cwd b = some (rb, cb, tb)) :
    (parse_command w cwd (.mk OP_PARALLEL a b none)).map (fun r => r.1)
      = some 0
    ∧ (∀ s1 s2 : ProcStatus,
        run_in_parallel_wait [⟨1, s1⟩, ⟨2, s2⟩]
          = (WIFEXITED s1 && WIFEXITED s2)) := by
  constructor
  · have hna := parse_some_not_null ha
    simp [parse_command, OP_PARALLEL, OP_NONE, OP_SEQUENTIAL, hna, ha, hb,
      par_combine, childStatus, WIFEXITED]
  · intro s1 s2
    cases hs1 : WIFEXITED s1 <;> cases hs2 : WIFEXITED s2 <;>
      simp [run_in_parallel_wait, wait_loop, hs1, hs2]

/-- Witness for C4's amended theorem at `PARALLEL(false, true)`, whose left
child reports a negative status. -/
theorem parallel_success_when_children_return_witness :
    (parse_command wEx "/" (.mk OP_PARALLEL leafFalse leafTrue none)).map
        (fun r => r.1) = some 0
    ∧ (∀ s1 s2 : ProcStatus,
        run_in_parallel_wait [⟨1, s1⟩, ⟨2, s2⟩]
          = (WIFEXITED s1 && WIFEXITED s2)) :=
  parallel_success_when_children_return wEx "/" leafFalse leafTrue (-1) 0
    "/" "/" [Event.ranSimple sFalse] [Event.ranSimple sTrue] rfl rfl

/-- C5 counterexample: the leaf `false` returns status `-1`, not the claimed
status `1`. -/
theorem false_literal_counterexample :
    (parse_simple wEx "/" sFalse).1 = -1 ∧ ((-1 : Int) ≠ 1) := by decide

/-- C5 (amended): a leaf whose verb reads `true` returns status `0` and a
leaf whose verb reads `false` returns status `-1` (nonzero), in both cases
with no process created (no fork event in the trace). -/
theorem bool_literal_status (w : World) (cwd : String) (s : simple_command)
    (v : Word) (hv : s.verb = some v) :
    (get_word v = "true" →
      (parse_simple w cwd s).1 = 0
      ∧ Event.forked ∉ (parse_simple w cwd s).2.2)
    ∧ (get_word v = "false" →
      (parse_simple w cwd s).1 = -1
      ∧ Event.forked ∉ (parse_simple w cwd s).2.2) := by
  refine ⟨fun h => ?_, fun h => ?_⟩
  · simp [parse_simple, hv, h]
  · simp [parse_simple, hv, h]

/-- Witness for C5's amended theorem at the leaf `false`. -/
theorem bool_literal_status_witness :
    (parse_simple wEx "/" sFalse).1 = -1
    ∧ Event.forked ∉ (parse_simple wEx "/" sFalse).2.2 :=
  (bool_literal_status wEx "/" sFalse ⟨"false", []⟩ rfl).2 rfl

/-- C6 counterexample: `cd` with zero arguments fails (returns `false`,
surfaced as status 1), but no diagnostic is emitted — `perror("cd")` runs
only on the `chdir` failure path, contradicting the claim that every failure
emits a diagnostic. -/
theorem cd_zero_args_silent_counterexample :
    (shell_cd (fun _ => true) [] "/").ok = false
    ∧ (shell_cd (fun _ => true) [] "/").diag = false := ⟨rfl, rfl⟩

/-- C6 (amended): `cd` fails (status 1 from `parse_simple`) whenever zero or
more than one argument is supplied or the underlying `chdir` fails, and the
working directory is left unchanged on every failure; a diagnostic is emitted
exactly when the underlying `chdir` fails — argument-count failures are
silent. -/
theorem cd_failure_behavior (ch : String → Bool) (params : List String)
    (cwd : String) (w : World) (hw : w.chdirOK = ch)
    (hfail : params = [] ∨ 2 ≤ params.length
      ∨ ∃ d, params = [d] ∧ ch d = false) :
    (shell_cd ch params cwd).ok = false
    ∧ (shell_cd ch params cwd).cwd = cwd
    ∧ ((shell_cd ch params cwd).diag = true
        ↔ ∃ d, params = [d] ∧ ch d = false)
    ∧ (parse_simple w cwd
        ⟨some ⟨"cd", []⟩, params, none, none, none, 0⟩).1 = 1 := by
  subst hw
  have hword : get_word ⟨"cd", []⟩ = "cd" := rfl
  rcases params with _ | ⟨d, _ | ⟨e, rest⟩⟩
  · simp [shell_cd, parse_simple, hword]
  · rcases hfail with h | h | ⟨d2, hd2, hcd⟩
    · exact absurd h (by simp)
    · exact absurd h (by simp)
    · injection hd2 with h1 h2
      subst h1
      simp [shell_cd, parse_simple, hword, hcd]
  · simp [shell_cd, parse_simple, hword]

/-- Witness for C6's amended theorem at `cd bad` in a world where `chdir`
always fails. -/
theorem cd_failure_behavior_witness :
    (shell_cd wCd.chdirOK ["bad"] "/").ok = false
    ∧ (shell_cd wCd.chdirOK ["bad"] "/").cwd = "/"
    ∧ ((shell_cd wCd.chdirOK ["bad"] "/").diag = true
        ↔ ∃ d, ["bad"] = [d] ∧ wCd.chdirOK d = false)
    ∧ (parse_simple wCd "/"
        ⟨some ⟨"cd", []⟩, ["bad"], none, none, none, 0⟩).1 = 1 :=
  cd_failure_behavior wCd.chdirOK ["bad"] "/" wCd rfl
    (Or.inr (Or.inr ⟨"bad", rfl, rfl⟩))

/-- C7: when stdout and stderr redirect to the identical literal path, the
redirection setup performs exactly one write-mode `open`, with append and
truncate combined, and duplicates that single descriptor onto both the stdout
slot (1) and the stderr slot (2); the stderr iteration is skipped (its
redirection was nulled out), so the file is never truncated between the two
streams. -/
theorem combined_redirect_single_open (s : simple_command) (p : String)
    (hout : s.out = some p) (herr : s.err = some p) :
    (open_files s).filter isWriteOpen
      = [FEvent.opened 0 p ⟨true, true, false, true, true⟩]
    ∧ FEvent.dup2ed 0 1 ∈ open_files s
    ∧ FEvent.dup2ed 0 2 ∈ open_files s := by
  cases hinp : s.inp <;>
    simp [open_files, open_slot, isWriteOpen, flagsFor, hout, herr, hinp]

/-- Witness for C7 at a command redirecting both streams to `f`. -/
theorem combined_redirect_single_open_witness :
    (open_files
        ⟨some ⟨"prog", []⟩, [], some "f", some "f", none, 0⟩).filter
          isWriteOpen
      = [FEvent.opened 0 "f" ⟨true, true, false, true, true⟩]
    ∧ FEvent.dup2ed 0 1
        ∈ open_files ⟨some ⟨"prog", []⟩, [], some "f", some "f", none, 0⟩
    ∧ FEvent.dup2ed 0 2
        ∈ open_files ⟨some ⟨"prog", []⟩, [], some "f", some "f", none, 0⟩ :=
  combined_redirect_single_open
    ⟨some ⟨"prog", []⟩, [], some "f", some "f", none, 0⟩ "f" rfl rfl

/-- Helper for C8: on well-formed trees `parse_command` produces a result in
every world and working directory. -/
lemma parse_total_aux (w : World) (t : command) (h : wf t) :
    ∀ cwd : String, (parse_command w cwd t).isSome := by
  induction h with
  | leaf c1 c2 s =>
    intro cwd
    simp [parse_command, OP_NONE]
  | node op a b sc h1 h5 hwa hwb iha ihb =>
    intro cwd
    have hA0 := iha cwd
    rw [Option.isSome_iff_exists] at hA0
    obtain ⟨⟨ra, cwd1, t1⟩, hA⟩ := hA0
    have hna := parse_some_not_null hA
    interval_cases op
    · have hB0 := ihb cwd1
      rw [Option.isSome_iff_exists] at hB0
      obtain ⟨⟨rb, cwd2, t2⟩, hB⟩ := hB0
      simp [parse_command, OP_NONE, OP_SEQUENTIAL, hna, hA, hB]
    · simp [parse_command, OP_NONE, OP_SEQUENTIAL, OP_PARALLEL, hna,
        par_combine]
    · have hB0 := ihb cwd1
      rw [Option.isSome_iff_exists] at hB0
      obtain ⟨⟨rb, cwd2, t2⟩, hB⟩ := hB0
      rcases eq_or_ne ra 0 with hra | hra <;>
        simp [parse_command, OP_NONE, OP_SEQUENTIAL, OP_PARALLEL,
          OP_CONDITIONAL_NZERO, hna, hA, hB, hra]
    · have hB0 := ihb cwd1
      rw [Option.isSome_iff_exists] at hB0
      obtain ⟨⟨rb, cwd2, t2⟩, hB⟩ := hB0
      rcases eq_or_ne ra 0 with hra | hra <;>
        simp [parse_command, OP_NONE, OP_SEQUENTIAL, OP_PARALLEL,
          OP_CONDITIONAL_NZERO, OP_CONDITIONAL_ZERO, hna, hA, hB, hra]
    · simp [parse_command, OP_NONE, OP_SEQUENTIAL, OP_PARALLEL,
        OP_CONDITIONAL_NZERO, OP_CONDITIONAL_ZERO, OP_PIPE, hna,
        pipe_combine]

/-- C8: for every well-formed command tree (each leaf's execution, supplied
by the world oracle, terminates) `parse_command` terminates — it is a total,
structurally recursive function — and returns an integer status (with the
resulting working directory and trace). -/
theorem parse_command_total (w : World) (cwd : String) (t : command)
    (h : wf t) :
    ∃ r : Int × String × List Event, parse_command w cwd t = some r := by
  have hs := parse_total_aux w t h cwd
  rwa [Option.isSome_iff_exists] at hs

/-- Witness for C8 at `SEQUENTIAL(true, false)`. -/
theorem parse_command_total_witness :
    ∃ r : Int × String × List Event,
      parse_command wEx "/"
        (.mk OP_SEQUENTIAL leafTrue leafFalse none) = some r :=
  parse_command_total wEx "/" (.mk OP_SEQUENTIAL leafTrue leafFalse none)
    (wf.node OP_SEQUENTIAL leafTrue leafFalse none (by decide) (by decide)
      (wf.leaf command.null command.null sTrue)
      (wf.leaf command.null command.null sFalse))

/-- C9 counterexample: a schedule in which the second-forked child (pid 11)
terminates first is a possible reap sequence of the parent's two `wait`
calls, and its observed pid order is not the creation order `[10, 11]` —
`wait(2)` reaps in termination order, not creation order. -/
theorem wait_creation_order_counterexample :
    valid_reaps 10 11 (ProcStatus.exited 0) (ProcStatus.exited 0)
        [⟨11, ProcStatus.exited 0⟩, ⟨10, ProcStatus.exited 0⟩]
    ∧ ([(⟨11, ProcStatus.exited 0⟩ : WaitResult),
        ⟨10, ProcStatus.exited 0⟩].map WaitResult.pid ≠ [10, 11]) :=
  ⟨Or.inr rfl, by decide⟩

/-- C9 (amended): the parent's two `wait` operations observe the children in
termination order, which may be either order; the wait loop's result equals
the conjunction of both children's `WIFEXITED` flags and is invariant under
that order. -/
theorem parallel_wait_any_order (c1 c2 : Nat) (s1 s2 : ProcStatus)
    (reaps : List WaitResult) (h : valid_reaps c1 c2 s1 s2 reaps) :
    run_in_parallel_wait reaps = (WIFEXITED s1 && WIFEXITED s2) := by
  rcases h with h | h <;> subst h <;>
    cases hs1 : WIFEXITED s1 <;> cases hs2 : WIFEXITED s2 <;>
      simp [run_in_parallel_wait, wait_loop, hs1, hs2]

/-- Witness for C9's amended theorem on the reversed-order schedule with a
signaled second child. -/
theorem parallel_wait_any_order_witness :
    run_in_parallel_wait
        [⟨11, ProcStatus.signaled 9⟩, ⟨10, ProcStatus.exited 0⟩]
      = (WIFEXITED (ProcStatus.exited 0)
          && WIFEXITED (ProcStatus.signaled 9)) :=
  parallel_wait_any_order 10 11 (ProcStatus.exited 0) (ProcStatus.signaled 9)
    [⟨11, ProcStatus.signaled 9⟩, ⟨10, ProcStatus.exited 0⟩] (Or.inr rfl)

/-- C10: a non-empty node whose operator tag is none of the six recognized
tags falls into the switch's `default` branch and `parse_command` returns the
distinguished terminate status `SHELL_EXIT`, telling the caller to stop the
whole program. -/
theorem unknown_op_shell_exit (w : World) (cwd : String) (op : Nat)
    (c1 c2 : command) (sc : Option simple_command)
    (hne : ¬(c1.isNull ∧ c2.isNull ∧ sc.isNone))
    (h0 : op ≠ OP_NONE) (h1 : op ≠ OP_SEQUENTIAL) (h2 : op ≠ OP_PARALLEL)
    (h3 : op ≠ OP_CONDITIONAL_NZERO) (h4 : op ≠ OP_CONDITIONAL_ZERO)
    (h5 : op ≠ OP_PIPE) :
    parse_command w cwd (.mk op c1 c2 sc) = some (SHELL_EXIT, cwd, []) := by
  simp only [parse_command]
  rw [if_neg hne]
  simp [h0, h1, h2, h3, h4, h5]

/-- Witness for C10 at tag 6 on a node holding a simple command. -/
theorem unknown_op_shell_exit_witness :
    parse_command wEx "/" (.mk 6 .null .null (some sTrue))
      = some (SHELL_EXIT, "/", []) :=
  unknown_op_shell_exit wEx "/" 6 .null .null (some sTrue) (by decide)
    (by decide) (by decide) (by decide) (by decide) (by decide) (by decide)

end MiniShell
